import Mathlib

/-!
Verification of the SU2–preCICE coupling driver (`run/SU2_preCICE_ablation.py`).

The driver is a single control loop coordinating the SU2 flow solver with the
preCICE coupling middleware.  We shallowly embed the controller-owned state and
control flow; calls into the two external collaborators (SU2 and preCICE) are
modelled as abstract state transformers and per-iteration oracle responses.
Rationals stand in for the floating-point times and time steps.
-/

namespace SU2Coupling

/-! ### Vertex registry (marker setup, source lines 99–193)

`setupRegistry` embeds the common shape of the three marker-setup blocks:
look the marker name up among the tags carrying the needed role and among the
markers present on this rank, then collect the non-halo vertex indices in
solver order.  The per-rank marker table is an association list; the solver
queries `GetNumberVertices`, `GetNumberHaloVertices` and `IsAHaloNode` are
oracle fields of the environment. -/

structure MarkerEnv where
  /-- tags from `GetAllDeformMeshMarkersTag` / `GetAllCHTMarkersTag` -/
  roleList : List String
  /-- markers defined on this rank with their IDs (`GetAllBoundaryMarkers`) -/
  allMarkerIDs : List (String × Nat)
  /-- `GetNumberVertices` per marker ID -/
  nVertex : Nat → Nat
  /-- `GetNumberHaloVertices` per marker ID -/
  nHalo : Nat → Nat
  /-- `IsAHaloNode` per marker ID and vertex index -/
  isHalo : Nat → Nat → Bool

structure Registry where
  markerID : Option Nat
  nVertex : Nat
  nVertexHalo : Nat
  nVertexPhys : Nat
  physVertices : List Nat
  deriving Repr, DecidableEq

def setupRegistry (env : MarkerEnv) (name : String) : Registry :=
  match (if name ∈ env.roleList then env.allMarkerIDs.lookup name else none) with
  | none =>
      { markerID := none, nVertex := 0, nVertexHalo := 0, nVertexPhys := 0,
        physVertices := [] }
  | some id =>
      let n := env.nVertex id
      let h := env.nHalo id
      { markerID := some id, nVertex := n, nVertexHalo := h, nVertexPhys := n - h,
        physVertices := (List.range n).filter (fun i => !(env.isHalo id i)) }

/-! ### Per-vertex exchange loops (source lines 298–314, 345–358)

`dispTriplesAux` embeds the displacement-application loop: it walks the
physical-vertex list with the running `enumerate` counter `i`, producing for
each vertex the `(iVertex, DisplX, DisplY, DisplZ)` arguments handed to
`SetMeshDisplacement`; in two dimensions the third component is the literal
zero from `0 if options.nDim == 2 else displacements[i][2]`.
`gatherScalar` embeds the write-side gather loops and `applyScalarAux` the
temperature-application loop. -/

def dispTriplesAux (nDim : Nat) (buf : Nat → ℚ × ℚ × ℚ) :
    Nat → List Nat → List (Nat × ℚ × ℚ × ℚ)
  | _, [] => []
  | i, v :: vs =>
      (v, (buf i).1, (buf i).2.1, if nDim = 2 then 0 else (buf i).2.2) ::
        dispTriplesAux nDim buf (i + 1) vs

def gatherScalar (getF : Nat → ℚ) (l : List Nat) : List ℚ :=
  l.map getF

def applyScalarAux {σ : Type} (setF : σ → Nat → ℚ → σ) (vals : Nat → ℚ) :
    Nat → List Nat → σ → σ
  | _, [], s => s
  | i, v :: vs, s => applyScalarAux setF vals (i + 1) vs (setF s v (vals i))

lemma dispTriplesAux_length (nDim : Nat) (buf : Nat → ℚ × ℚ × ℚ) (i : Nat)
    (l : List Nat) : (dispTriplesAux nDim buf i l).length = l.length := by
  induction l generalizing i with
  | nil => rfl
  | cons v vs ih => simp [dispTriplesAux, ih]

lemma countP_add_countP_not {α : Type} (p : α → Bool) (l : List α) :
    l.countP p + l.countP (fun a => !(p a)) = l.length := by
  induction l with
  | nil => rfl
  | cons a l ih =>
      by_cases h : p a = true <;> simp [List.countP_cons, h, ← ih] <;> omega

/-! ### Observable events

Each externally visible action of the controller is recorded as an event so
that ordering and targeting properties can be stated over run traces.  Writes
and mesh registrations carry the coupling mesh they address (`Fluid-Mesh` is
`primary`, `Fluid-Mesh2` is `secondary`); step-size–carrying events record the
step they were given. -/

inductive MeshTag | primary | secondary
  deriving Repr, DecidableEq

inductive FieldTag | pressure | heatFlux
  deriving Repr, DecidableEq

inductive Ev
  | save
  | readApply (m : MeshTag)
  | applyTemp
  | bcUpdate
  | setDt (dt : ℚ)
  | solve (dt : ℚ)
  | writeData (m : MeshTag) (f : FieldTag)
  | advance (dt : ℚ)
  | restore
  | output
  | registerMesh (m : MeshTag)
  | initData
  | abortDim
  deriving Repr, DecidableEq

def Ev.isSave : Ev → Bool | .save => true | _ => false
def Ev.isReadApply : Ev → Bool | .readApply _ => true | _ => false
def Ev.isSetDt : Ev → Bool | .setDt _ => true | _ => false
def Ev.isSolve : Ev → Bool | .solve _ => true | _ => false
def Ev.isWrite : Ev → Bool | .writeData _ _ => true | _ => false
def Ev.isAdvance : Ev → Bool | .advance _ => true | _ => false

/-! ### Controller state and collaborators

`Ctrl` gathers the mutable run state the script owns: the solver's internal
solution state (abstract, with the `SaveOldState` slot alongside it), the
solver's unsteady time-step setting, and the script variables `time`,
`TimeIter`, `precice_saved_time`, `precice_saved_iter`, `precice_deltaT`.

`SolverBehavior` abstracts the SU2 calls whose effect on the solution state
the script does not inspect: the boundary-condition application during the
read phase, the `Preprocess`/`Run`/`Postprocess`/`Update` step, and
`Monitor`'s stop signal.  `Resp` is one iteration's worth of preCICE oracle
answers. -/

structure Ctrl where
  solverCore : Nat
  solverOld : Nat
  solverDt : ℚ
  time : ℚ
  timeIter : Nat
  savedTime : ℚ
  savedIter : Nat
  preciceDt : ℚ
  deriving Repr, DecidableEq

structure SolverBehavior where
  /-- net effect on the solution state of `SetMeshDisplacement` /
  `SetVertexTemperature` / `BoundaryConditionsUpdate` -/
  applyRead : Nat → Nat
  /-- net effect of `Preprocess`/`Run`/`Postprocess`/`Update` given the step -/
  stepRun : Nat → ℚ → Nat
  /-- `Monitor(TimeIter)` stop signal -/
  monitor : Nat → Nat → Bool

structure Resp where
  /-- `is_action_required(write_iteration_checkpoint)` -/
  cpWriteReq : Bool
  /-- `is_read_data_available` -/
  readAvail : Bool
  /-- `is_write_data_required(deltaT)` -/
  writeReq : Bool
  /-- `is_action_required(read_iteration_checkpoint)` -/
  cpReadReq : Bool
  /-- step-size constraint returned by `advance(deltaT)` -/
  nextDt : ℚ

/-- Checkpoint save (source lines 284–289): `SaveOldState` copies the solution
state into the old-state slot, and the script records `time` / `TimeIter`. -/
def saveCheckpoint (st : Ctrl) : Ctrl :=
  { st with solverOld := st.solverCore, savedTime := st.time,
            savedIter := st.timeIter }

/-- Checkpoint restore (source lines 365–370): `ReloadOldState` brings the
old-state slot back, and the script rewinds `time` / `TimeIter` to the
recorded values. -/
def restoreCheckpoint (st : Ctrl) : Ctrl :=
  { st with solverCore := st.solverOld, time := st.savedTime,
            timeIter := st.savedIter }

/-- Events of the checkpoint-save phase. -/
def cpEvents (b : Bool) : List Ev := if b then [.save] else []

/-- Events of the read-application phase: displacements applied to the primary
then the secondary moving marker, temperatures to the CHT marker, then
`BoundaryConditionsUpdate`. -/
def readEvents (b : Bool) : List Ev :=
  if b then [.readApply .primary, .readApply .secondary, .applyTemp, .bcUpdate]
  else []

/-- Events of the write-exchange phase: pressure then heat flux, both written
against the primary mesh's vertex IDs (`vertex_ids`, source lines 350, 358). -/
def writeEvents (b : Bool) : List Ev :=
  if b then [.writeData .primary .pressure, .writeData .primary .heatFlux]
  else []

/-- Events of the commit-or-rollback phase. -/
def commitEvents (b : Bool) : List Ev := if b then [.restore] else [.output]

/-- One iteration of the coupling loop (source lines 281–380).  Returns the
new controller state, whether the loop `break`s (solver stop signal on a
committed window), and the iteration's event trace. -/
def loopBody (B : SolverBehavior) (r : Resp) (st : Ctrl) :
    Ctrl × Bool × List Ev :=
  -- implicit coupling: write checkpoint if required
  let st1 := if r.cpWriteReq then saveCheckpoint st else st
  -- read data and apply it to the solver boundary state
  let st2 := if r.readAvail then { st1 with solverCore := B.applyRead st1.solverCore }
             else st1
  -- reconcile the time step with the preCICE constraint and write it back
  let eff := min st2.preciceDt st2.solverDt
  let st3 := { st2 with solverDt := eff }
  -- Preprocess / Run / Postprocess / Update / Monitor
  let st4 := { st3 with solverCore := B.stepRun st3.solverCore eff }
  let stop := B.monitor st4.solverCore st4.timeIter
  -- write data if required, then advance preCICE
  let st5 := { st4 with preciceDt := r.nextDt }
  let tr := cpEvents r.cpWriteReq ++ readEvents r.readAvail ++
    [.setDt eff, .solve eff] ++ writeEvents r.writeReq ++ [.advance eff] ++
    commitEvents r.cpReadReq
  -- implicit coupling: read checkpoint if required, else output and increment
  -- (on a committed window the `break` fires exactly when `Monitor` said stop)
  if r.cpReadReq then
    (restoreCheckpoint st5, false, tr)
  else
    ((if stop then st5
      else { st5 with timeIter := st5.timeIter + 1, time := st5.time + eff }),
     stop, tr)

/-- The `while is_coupling_ongoing()` loop: the script of oracle responses
lists the iterations for which the middleware reports the session ongoing;
the loop also ends early when an iteration `break`s. -/
def runLoop (B : SolverBehavior) : Ctrl → List Resp → Ctrl × List Ev
  | st, [] => (st, [])
  | st, r :: rs =>
      if (loopBody B r st).2.1 then ((loopBody B r st).1, (loopBody B r st).2.2)
      else ((runLoop B (loopBody B r st).1 rs).1,
            (loopBody B r st).2.2 ++ (runLoop B (loopBody B r st).1 rs).2)

/-- Configuration and pre-loop queries of the run (source lines 59, 93,
247–253, 256, 279–280). -/
structure Config where
  /-- `options.nDim` -/
  nDim : Nat
  /-- `interface.get_dimensions()` -/
  preciceDim : Nat
  /-- `is_action_required(write_initial_data)` -/
  writeInitReq : Bool
  /-- `GetUnsteady_TimeStep` before the loop -/
  solverDt0 : ℚ
  /-- `GetTime_Iter` before the loop -/
  timeIter0 : Nat
  /-- constraint returned by `interface.initialize()` -/
  initialPreciceDt : ℚ
  /-- solver solution state after initialization -/
  core0 : Nat
  /-- initial content of the `SaveOldState` slot -/
  old0 : Nat

/-- Controller state on entering the loop: `time = TimeIter*deltaT`
(source line 250) and the saved-checkpoint variables start at zero
(source lines 279–280). -/
def initCtrl (c : Config) : Ctrl :=
  { solverCore := c.core0, solverOld := c.old0, solverDt := c.solverDt0,
    time := (c.timeIter0 : ℚ) * c.solverDt0, timeIter := c.timeIter0,
    savedTime := 0, savedIter := 0, preciceDt := c.initialPreciceDt }

/-- Initialization phase (source lines 92–95, 218–219, 256–267): the
dimension check aborts the run before anything else; otherwise both meshes
are registered, initial data is written to the primary mesh if required, and
`initialize_data` runs. -/
def initPhase (c : Config) : Option Ctrl × List Ev :=
  if c.nDim ≠ c.preciceDim then (none, [.abortDim])
  else
    (some (initCtrl c),
      [.registerMesh .primary, .registerMesh .secondary] ++
        writeEvents c.writeInitReq ++ [.initData])

/-- A whole run: initialization followed by the coupling loop. -/
def fullRun (c : Config) (B : SolverBehavior) (script : List Resp) :
    Option Ctrl × List Ev :=
  match initPhase c with
  | (none, tr) => (none, tr)
  | (some st, tr) =>
      let res := runLoop B st script
      (some res.1, tr ++ res.2)

/-! ### Trace ordering -/

/-- Every event satisfying `p` occurs strictly before every event
satisfying `q` in the trace `t`. -/
def eventsBefore (t : List Ev) (p q : Ev → Bool) : Prop :=
  ∀ i j (hi : i < t.length) (hj : j < t.length),
    p (t.get ⟨i, hi⟩) = true → q (t.get ⟨j, hj⟩) = true → i < j

lemma eventsBefore_append {t1 t2 : List Ev} {p q : Ev → Bool}
    (h1 : ∀ e ∈ t1, q e = false) (h2 : ∀ e ∈ t2, p e = false) :
    eventsBefore (t1 ++ t2) p q := by
  intro i j hi hj hp hq
  have hjlen : t1.length ≤ j := by
    by_contra hlt
    push_neg at hlt
    have hg : (t1 ++ t2).get ⟨j, hj⟩ = t1.get ⟨j, hlt⟩ := by
      simp [List.get_eq_getElem, List.getElem_append_left hlt]
    rw [hg] at hq
    have := h1 (t1.get ⟨j, hlt⟩) (List.get_mem t1 j hlt)
    rw [List.get_eq_getElem] at this
    simp [this] at hq
  have hilt : i < t1.length := by
    by_contra hge
    push_neg at hge
    have hi2 : i - t1.length < t2.length := by
      have := hi
      simp only [List.length_append] at this
      omega
    have hg : (t1 ++ t2).get ⟨i, hi⟩ = t2.get ⟨i - t1.length, hi2⟩ := by
      simp [List.get_eq_getElem, List.getElem_append_right hge]
    rw [hg] at hp
    have := h2 (t2.get ⟨i - t1.length, hi2⟩) (List.get_mem t2 (i - t1.length) hi2)
    rw [List.get_eq_getElem] at this
    simp [this] at hp
  omega

lemma eventsBefore_of_eq {t u v : List Ev} {p q : Ev → Bool} (ht : t = u ++ v)
    (h1 : ∀ e ∈ u, q e = false) (h2 : ∀ e ∈ v, p e = false) :
    eventsBefore t p q := ht ▸ eventsBefore_append h1 h2

/-- The trace of one loop iteration, laid out in source order. -/
lemma loopBody_trace (B : SolverBehavior) (r : Resp) (st : Ctrl) :
    (loopBody B r st).2.2 =
      cpEvents r.cpWriteReq ++ readEvents r.readAvail ++
        [Ev.setDt (min st.preciceDt st.solverDt),
         Ev.solve (min st.preciceDt st.solverDt)] ++
        writeEvents r.writeReq ++
        [Ev.advance (min st.preciceDt st.solverDt)] ++
        commitEvents r.cpReadReq := by
  rcases r with ⟨cw, ra, wr, cr, nd⟩
  cases cw <;> cases ra <;> cases cr <;>
    simp [loopBody, saveCheckpoint, restoreCheckpoint]

lemma mem_cpEvents {e : Ev} {b : Bool} (h : e ∈ cpEvents b) : e = Ev.save := by
  cases b <;> simp [cpEvents] at h <;> exact h

lemma mem_readEvents {e : Ev} {b : Bool} (h : e ∈ readEvents b) :
    e = Ev.readApply .primary ∨ e = Ev.readApply .secondary ∨
      e = Ev.applyTemp ∨ e = Ev.bcUpdate := by
  cases b <;> simp [readEvents] at h <;> tauto

lemma mem_writeEvents {e : Ev} {b : Bool} (h : e ∈ writeEvents b) :
    e = Ev.writeData .primary .pressure ∨ e = Ev.writeData .primary .heatFlux := by
  cases b <;> simp [writeEvents] at h <;> tauto

lemma mem_commitEvents {e : Ev} {b : Bool} (h : e ∈ commitEvents b) :
    e = Ev.restore ∨ e = Ev.output := by
  cases b <;> simp [commitEvents] at h <;> tauto

lemma cpEvents_pred_false {b : Bool} {p : Ev → Bool} (hp : p Ev.save = false) :
    ∀ e ∈ cpEvents b, p e = false := fun _ he => (mem_cpEvents he) ▸ hp

lemma readEvents_pred_false {b : Bool} {p : Ev → Bool}
    (h1 : p (Ev.readApply .primary) = false)
    (h2 : p (Ev.readApply .secondary) = false)
    (h3 : p Ev.applyTemp = false) (h4 : p Ev.bcUpdate = false) :
    ∀ e ∈ readEvents b, p e = false := by
  intro e he
  rcases mem_readEvents he with h | h | h | h <;> subst h <;> assumption

lemma writeEvents_pred_false {b : Bool} {p : Ev → Bool}
    (h1 : p (Ev.writeData .primary .pressure) = false)
    (h2 : p (Ev.writeData .primary .heatFlux) = false) :
    ∀ e ∈ writeEvents b, p e = false := by
  intro e he
  rcases mem_writeEvents he with h | h <;> subst h <;> assumption

lemma commitEvents_pred_false {b : Bool} {p : Ev → Bool}
    (h1 : p Ev.restore = false) (h2 : p Ev.output = false) :
    ∀ e ∈ commitEvents b, p e = false := by
  intro e he
  rcases mem_commitEvents he with h | h <;> subst h <;> assumption

lemma append_pred_false {t1 t2 : List Ev} {p : Ev → Bool}
    (h1 : ∀ e ∈ t1, p e = false) (h2 : ∀ e ∈ t2, p e = false) :
    ∀ e ∈ t1 ++ t2, p e = false := by
  intro e he
  rcases List.mem_append.1 he with h | h
  exacts [h1 e h, h2 e h]

lemma cons_pred_false {a : Ev} {t : List Ev} {p : Ev → Bool}
    (h1 : p a = false) (h2 : ∀ e ∈ t, p e = false) :
    ∀ e ∈ a :: t, p e = false := by
  intro e he
  rcases List.mem_cons.1 he with rfl | h
  exacts [h1, h2 e h]

lemma nil_pred_false {p : Ev → Bool} : ∀ e ∈ ([] : List Ev), p e = false := by
  intro e he
  simp at he

lemma loopBody_no_secondary_write (B : SolverBehavior) (r : Resp) (st : Ctrl) :
    ∀ e ∈ (loopBody B r st).2.2, ∀ f, e ≠ Ev.writeData MeshTag.secondary f := by
  rw [loopBody_trace]
  rcases r with ⟨cw, ra, wr, cr, nd⟩
  intro e he f hne
  subst hne
  cases cw <;> cases ra <;> cases wr <;> cases cr <;>
    simp [cpEvents, readEvents, writeEvents, commitEvents] at he

lemma runLoop_no_secondary_write (B : SolverBehavior) :
    ∀ (script : List Resp) (st : Ctrl),
      ∀ e ∈ (runLoop B st script).2, ∀ f, e ≠ Ev.writeData MeshTag.secondary f := by
  intro script
  induction script with
  | nil =>
      intro st e he
      simp [runLoop] at he
  | cons r rs ih =>
      intro st e he f
      rw [runLoop] at he
      rcases hb : (loopBody B r st).2.1 with _ | _
      · rw [if_neg (by simp [hb])] at he
        rcases List.mem_append.1 he with h | h
        · exact loopBody_no_secondary_write B r st e h f
        · exact ih (loopBody B r st).1 e h f
      · rw [if_pos hb] at he
        exact loopBody_no_secondary_write B r st e he f

lemma fullRun_no_secondary_write (c : Config) (B : SolverBehavior)
    (script : List Resp) :
    ∀ e ∈ (fullRun c B script).2, ∀ f, e ≠ Ev.writeData MeshTag.secondary f := by
  intro e he f hne
  subst hne
  by_cases hdim : c.nDim = c.preciceDim
  · rcases hcw : c.writeInitReq with _ | _ <;>
      simp [fullRun, initPhase, hdim, hcw, writeEvents] at he <;>
      exact runLoop_no_secondary_write B script (initCtrl c) _ he _ rfl
  · simp [fullRun, initPhase, hdim] at he

/-! ### Concrete sample instances (used by the witness theorems) -/

def sampleB : SolverBehavior :=
  { applyRead := fun s => s + 10, stepRun := fun s _ => s + 1,
    monitor := fun _ _ => false }

def sampleCtrl : Ctrl :=
  { solverCore := 7, solverOld := 3, solverDt := 2, time := 5, timeIter := 4,
    savedTime := 1, savedIter := 2, preciceDt := 3 }

def sampleResp : Resp :=
  { cpWriteReq := true, readAvail := true, writeReq := true,
    cpReadReq := false, nextDt := 4 }

def sampleRespRb : Resp :=
  { cpWriteReq := true, readAvail := true, writeReq := true,
    cpReadReq := true, nextDt := 4 }

def sampleRespRb0 : Resp :=
  { cpWriteReq := false, readAvail := false, writeReq := false,
    cpReadReq := true, nextDt := 4 }

def sampleConfig : Config :=
  { nDim := 3, preciceDim := 3, writeInitReq := true, solverDt0 := 2,
    timeIter0 := 5, initialPreciceDt := 3, core0 := 7, old0 := 3 }

def sampleConfigBad : Config :=
  { nDim := 2, preciceDim := 3, writeInitReq := true, solverDt0 := 2,
    timeIter0 := 5, initialPreciceDt := 3, core0 := 7, old0 := 3 }

def sampleEnv : MarkerEnv :=
  { roleList := ["interface", "interface2"], allMarkerIDs := [("interface", 0)],
    nVertex := fun _ => 4, nHalo := fun _ => 2,
    isHalo := fun _ i => i % 2 == 1 }

lemma dispTriplesAux_two (buf : Nat → ℚ × ℚ × ℚ) :
    ∀ (l : List Nat) (i : Nat),
      (dispTriplesAux 2 buf i l).map (fun t => t.2.2.2) =
        List.replicate l.length 0 := by
  intro l
  induction l with
  | nil => intro i; rfl
  | cons v vs ih =>
      intro i
      simp [dispTriplesAux, List.replicate_succ, ih (i + 1)]

lemma dispTriplesAux_three (buf : Nat → ℚ × ℚ × ℚ) :
    ∀ (l : List Nat) (i : Nat),
      (dispTriplesAux 3 buf i l).map (fun t => t.2.2.2) =
        (List.range l.length).map (fun k => (buf (i + k)).2.2) := by
  intro l
  induction l with
  | nil => intro i; rfl
  | cons v vs ih =>
      intro i
      simp only [dispTriplesAux, List.map_cons, List.length_cons,
        List.range_succ_eq_map, List.map_map]
      refine congrArg₂ List.cons (by simp) ?_
      rw [ih (i + 1)]
      refine List.map_congr_left ?_
      intro k _
      have h : i + 1 + k = i + (k + 1) := by omega
      simp [Function.comp, h]

/-! ### Claim theorems -/

/-- **C2.** Round-trip: `save()` followed by `restore()` with no intervening
solver step leaves `time` and `TimeIter` unchanged and returns the solver to
the saved state. -/
theorem save_restore_roundtrip (st : Ctrl) :
    (restoreCheckpoint (saveCheckpoint st)).time = st.time ∧
    (restoreCheckpoint (saveCheckpoint st)).timeIter = st.timeIter ∧
    (restoreCheckpoint (saveCheckpoint st)).solverCore = st.solverCore ∧
    (restoreCheckpoint (saveCheckpoint st)).solverDt = st.solverDt ∧
    (restoreCheckpoint (saveCheckpoint st)).preciceDt = st.preciceDt :=
  ⟨rfl, rfl, rfl, rfl, rfl⟩

/-- **C4.** For a boundary marker present on this rank (with the needed
role), the registry's physical-vertex sequence contains exactly the non-halo
vertex indices, contains no halo vertex, preserves the solver's internal
indexing order, and its length equals the total vertex count minus the halo
count. -/
theorem registry_physical_vertices (env : MarkerEnv) (name : String) (id : Nat)
    (hrole : name ∈ env.roleList)
    (hlook : env.allMarkerIDs.lookup name = some id)
    (hcount : env.nHalo id =
      (List.range (env.nVertex id)).countP (fun i => env.isHalo id i)) :
    (∀ i, i ∈ (setupRegistry env name).physVertices ↔
      i < env.nVertex id ∧ env.isHalo id i = false) ∧
    List.Pairwise (· < ·) (setupRegistry env name).physVertices ∧
    (setupRegistry env name).physVertices.length =
      (setupRegistry env name).nVertex - (setupRegistry env name).nVertexHalo := by
  have hreg : setupRegistry env name =
      { markerID := some id, nVertex := env.nVertex id,
        nVertexHalo := env.nHalo id,
        nVertexPhys := env.nVertex id - env.nHalo id,
        physVertices := (List.range (env.nVertex id)).filter
          (fun i => !(env.isHalo id i)) } := by
    simp [setupRegistry, hrole, hlook]
  rw [hreg]
  refine ⟨?_, ?_, ?_⟩
  · intro i
    simp [List.mem_filter, List.mem_range]
  · exact List.Pairwise.filter _ (List.pairwise_lt_range _)
  · have h1 := countP_add_countP_not (fun i => env.isHalo id i)
      (List.range (env.nVertex id))
    simp only [List.length_range] at h1
    simp only [← List.countP_eq_length_filter]
    omega

/-- **C5.** For a configured marker name absent on this rank or lacking the
needed coupling role, the registry yields the empty vertex sequence, no
fatal error is raised (the setup is total), and the per-vertex read/write
loops over that registry have no observable effect. -/
theorem absent_marker_disabled (env : MarkerEnv) (name : String)
    (habs : name ∉ env.roleList ∨ env.allMarkerIDs.lookup name = none) :
    setupRegistry env name =
      { markerID := none, nVertex := 0, nVertexHalo := 0, nVertexPhys := 0,
        physVertices := [] } ∧
    (∀ (nDim : Nat) (buf : Nat → ℚ × ℚ × ℚ) (k : Nat),
      dispTriplesAux nDim buf k (setupRegistry env name).physVertices = []) ∧
    (∀ getF : Nat → ℚ,
      gatherScalar getF (setupRegistry env name).physVertices = []) ∧
    (∀ (σ : Type) (setF : σ → Nat → ℚ → σ) (vals : Nat → ℚ) (k : Nat) (s : σ),
      applyScalarAux setF vals k (setupRegistry env name).physVertices s = s) := by
  have hreg : setupRegistry env name =
      { markerID := none, nVertex := 0, nVertexHalo := 0, nVertexPhys := 0,
        physVertices := [] } := by
    rcases habs with h | h
    · simp [setupRegistry, h]
    · by_cases hr : name ∈ env.roleList <;> simp [setupRegistry, hr, h]
  refine ⟨hreg, ?_, ?_, ?_⟩ <;> rw [hreg] <;> intros <;> rfl

/-- **C6.** In a two-dimensional run every displacement application passes a
third component equal to zero, whatever the read buffer holds; in a
three-dimensional run the buffer's third component is passed through, entry
by entry. -/
theorem displacement_third_component (buf : Nat → ℚ × ℚ × ℚ) (l : List Nat)
    (i : Nat) :
    (dispTriplesAux 2 buf i l).map (fun t => t.2.2.2) =
      List.replicate l.length 0 ∧
    (dispTriplesAux 3 buf i l).map (fun t => t.2.2.2) =
      (List.range l.length).map (fun k => (buf (i + k)).2.2) :=
  ⟨dispTriplesAux_two buf l i, dispTriplesAux_three buf l i⟩

/-- **C1.** After `advance`, a signalled repeat restores the solver state
from the checkpoint and rewinds `time`/`TimeIter` to the values present at
the most recent `save()` (neither incrementing the iteration counter nor
advancing time, and triggering no output); only when no repeat is signalled
are output triggered, `TimeIter` incremented by one, and time advanced by
the effective step. -/
theorem rollback_vs_commit (B : SolverBehavior) (r : Resp) (st : Ctrl) :
    (r.cpReadReq = true →
      (loopBody B r st).1.time = (if r.cpWriteReq then st.time else st.savedTime) ∧
      (loopBody B r st).1.timeIter =
        (if r.cpWriteReq then st.timeIter else st.savedIter) ∧
      (loopBody B r st).1.solverCore =
        (if r.cpWriteReq then st.solverCore else st.solverOld) ∧
      Ev.output ∉ (loopBody B r st).2.2) ∧
    (r.cpReadReq = false →
      Ev.output ∈ (loopBody B r st).2.2 ∧
      ((loopBody B r st).2.1 = false →
        (loopBody B r st).1.timeIter = st.timeIter + 1 ∧
        (loopBody B r st).1.time = st.time + min st.preciceDt st.solverDt)) := by
  rcases r with ⟨cw, ra, wr, cr, nd⟩
  cases cr
  · refine ⟨by simp, fun _ => ⟨?_, ?_⟩⟩
    · rw [loopBody_trace]
      cases cw <;> cases ra <;> cases wr <;>
        simp [cpEvents, readEvents, writeEvents, commitEvents]
    · intro hstop
      simp only [loopBody] at hstop ⊢
      cases cw <;> cases ra <;> simp_all [saveCheckpoint]
  · refine ⟨fun _ => ⟨?_, ?_, ?_, ?_⟩, by simp⟩
    · cases cw <;> cases ra <;>
        simp [loopBody, saveCheckpoint, restoreCheckpoint]
    · cases cw <;> cases ra <;>
        simp [loopBody, saveCheckpoint, restoreCheckpoint]
    · cases cw <;> cases ra <;>
        simp [loopBody, saveCheckpoint, restoreCheckpoint]
    · rw [loopBody_trace]
      cases cw <;> cases ra <;> cases wr <;>
        simp [cpEvents, readEvents, writeEvents, commitEvents]

/-- **C3.** With middleware step constraint `s = preciceDt` and local step
`d = solverDt`, the effective step used for the solve and passed to
`advance` is `min s d`, and this value is written back to the solver's
time-step setting before the solver steps. -/
theorem effective_step_min (B : SolverBehavior) (r : Resp) (st : Ctrl)
    (hs : 0 < st.preciceDt) (hd : 0 < st.solverDt) :
    Ev.setDt (min st.preciceDt st.solverDt) ∈ (loopBody B r st).2.2 ∧
    Ev.solve (min st.preciceDt st.solverDt) ∈ (loopBody B r st).2.2 ∧
    Ev.advance (min st.preciceDt st.solverDt) ∈ (loopBody B r st).2.2 ∧
    eventsBefore (loopBody B r st).2.2 Ev.isSetDt Ev.isSolve ∧
    (loopBody B r st).1.solverDt = min st.preciceDt st.solverDt := by
  refine ⟨?_, ?_, ?_, ?_, ?_⟩
  · rw [loopBody_trace]; simp
  · rw [loopBody_trace]; simp
  · rw [loopBody_trace]; simp
  · rw [loopBody_trace]
    refine eventsBefore_of_eq
      (u := cpEvents r.cpWriteReq ++ (readEvents r.readAvail ++
        [Ev.setDt (min st.preciceDt st.solverDt)]))
      (v := Ev.solve (min st.preciceDt st.solverDt) ::
        (writeEvents r.writeReq ++
          (Ev.advance (min st.preciceDt st.solverDt) ::
            commitEvents r.cpReadReq)))
      (by simp) ?_ ?_
    · exact append_pred_false (cpEvents_pred_false rfl)
        (append_pred_false (readEvents_pred_false rfl rfl rfl rfl)
          (cons_pred_false rfl nil_pred_false))
    · exact cons_pred_false rfl
        (append_pred_false (writeEvents_pred_false rfl rfl)
          (cons_pred_false rfl (commitEvents_pred_false rfl rfl)))
  · rcases r with ⟨cw, ra, wr, cr, nd⟩
    cases cw <;> cases ra <;> cases cr <;>
      simp [loopBody, saveCheckpoint, restoreCheckpoint] <;> split <;> rfl

/-- **C7.** A spatial-dimension mismatch between solver and middleware
aborts the run with a diagnostic before any vertex registration, data
exchange or solver time-stepping; equal dimensions let initialization
proceed. -/
theorem dimension_mismatch_aborts (c : Config) (B : SolverBehavior)
    (script : List Resp) :
    (c.nDim ≠ c.preciceDim →
      (fullRun c B script).1 = none ∧
      (fullRun c B script).2 = [Ev.abortDim] ∧
      (∀ m, Ev.registerMesh m ∉ (fullRun c B script).2) ∧
      (∀ m f, Ev.writeData m f ∉ (fullRun c B script).2) ∧
      (∀ q, Ev.solve q ∉ (fullRun c B script).2)) ∧
    (c.nDim = c.preciceDim → (fullRun c B script).1.isSome = true) := by
  constructor
  · intro h
    refine ⟨?_, ?_, ?_, ?_, ?_⟩ <;> simp [fullRun, initPhase, h]
  · intro h
    simp [fullRun, initPhase, h]

/-- **C8.** Within one iteration of the coupling loop, the checkpoint save
strictly precedes read-data application, which strictly precedes the solver
step, which strictly precedes the write-data exchange, which strictly
precedes the advance call. -/
theorem iteration_phase_order (B : SolverBehavior) (r : Resp) (st : Ctrl) :
    eventsBefore (loopBody B r st).2.2 Ev.isSave Ev.isReadApply ∧
    eventsBefore (loopBody B r st).2.2 Ev.isReadApply Ev.isSolve ∧
    eventsBefore (loopBody B r st).2.2 Ev.isSolve Ev.isWrite ∧
    eventsBefore (loopBody B r st).2.2 Ev.isWrite Ev.isAdvance := by
  rw [loopBody_trace]
  refine ⟨?_, ?_, ?_, ?_⟩
  · refine eventsBefore_of_eq (u := cpEvents r.cpWriteReq)
      (v := readEvents r.readAvail ++
        (Ev.setDt (min st.preciceDt st.solverDt) ::
          (Ev.solve (min st.preciceDt st.solverDt) ::
            (writeEvents r.writeReq ++
              (Ev.advance (min st.preciceDt st.solverDt) ::
                commitEvents r.cpReadReq)))))
      (by simp) ?_ ?_
    · exact cpEvents_pred_false rfl
    · exact append_pred_false (readEvents_pred_false rfl rfl rfl rfl)
        (cons_pred_false rfl (cons_pred_false rfl
          (append_pred_false (writeEvents_pred_false rfl rfl)
            (cons_pred_false rfl (commitEvents_pred_false rfl rfl)))))
  · refine eventsBefore_of_eq
      (u := cpEvents r.cpWriteReq ++ readEvents r.readAvail)
      (v := Ev.setDt (min st.preciceDt st.solverDt) ::
        (Ev.solve (min st.preciceDt st.solverDt) ::
          (writeEvents r.writeReq ++
            (Ev.advance (min st.preciceDt st.solverDt) ::
              commitEvents r.cpReadReq))))
      (by simp) ?_ ?_
    · exact append_pred_false (cpEvents_pred_false rfl)
        (readEvents_pred_false rfl rfl rfl rfl)
    · exact cons_pred_false rfl (cons_pred_false rfl
        (append_pred_false (writeEvents_pred_false rfl rfl)
          (cons_pred_false rfl (commitEvents_pred_false rfl rfl))))
  · refine eventsBefore_of_eq
      (u := cpEvents r.cpWriteReq ++ (readEvents r.readAvail ++
        [Ev.setDt (min st.preciceDt st.solverDt),
         Ev.solve (min st.preciceDt st.solverDt)]))
      (v := writeEvents r.writeReq ++
        (Ev.advance (min st.preciceDt st.solverDt) ::
          commitEvents r.cpReadReq))
      (by simp) ?_ ?_
    · exact append_pred_false (cpEvents_pred_false rfl)
        (append_pred_false (readEvents_pred_false rfl rfl rfl rfl)
          (cons_pred_false rfl (cons_pred_false rfl nil_pred_false)))
    · exact append_pred_false (writeEvents_pred_false rfl rfl)
        (cons_pred_false rfl (commitEvents_pred_false rfl rfl))
  · refine eventsBefore_of_eq
      (u := cpEvents r.cpWriteReq ++ (readEvents r.readAvail ++
        ([Ev.setDt (min st.preciceDt st.solverDt),
          Ev.solve (min st.preciceDt st.solverDt)] ++
          writeEvents r.writeReq)))
      (v := Ev.advance (min st.preciceDt st.solverDt) ::
        commitEvents r.cpReadReq)
      (by simp) ?_ ?_
    · exact append_pred_false (cpEvents_pred_false rfl)
        (append_pred_false (readEvents_pred_false rfl rfl rfl rfl)
          (append_pred_false
            (cons_pred_false rfl (cons_pred_false rfl nil_pred_false))
            (writeEvents_pred_false rfl rfl)))
    · exact cons_pred_false rfl (commitEvents_pred_false rfl rfl)

/-- **C9.** The secondary moving-interface mesh is registered and its
displacement field read and applied whenever read data is available, but no
write-data exchange — initial-data or steady-state — ever targets the
secondary mesh: every write in every execution goes to the primary mesh. -/
theorem secondary_mesh_never_written (c : Config) (B : SolverBehavior)
    (script : List Resp) (r : Resp) (st : Ctrl) :
    (∀ f, Ev.writeData MeshTag.secondary f ∉ (fullRun c B script).2) ∧
    (c.nDim = c.preciceDim →
      Ev.registerMesh MeshTag.secondary ∈ (fullRun c B script).2) ∧
    (r.readAvail = true →
      Ev.readApply MeshTag.secondary ∈ (loopBody B r st).2.2) := by
  refine ⟨?_, ?_, ?_⟩
  · intro f hmem
    exact fullRun_no_secondary_write c B script _ hmem f rfl
  · intro h
    simp [fullRun, initPhase, h]
  · intro h
    rw [loopBody_trace]
    simp [readEvents, h]

/-- **C10.** A rollback requested before any `save()` in the run does not
fail: the controller restores the solver state and rewinds `time` and
`TimeIter` to the initial values (zero) of the saved-time/saved-iteration
variables, even when the pre-loop time and iteration were nonzero. -/
theorem rollback_before_any_save (c : Config) (B : SolverBehavior) (r : Resp)
    (hw : r.cpWriteReq = false) (hr : r.cpReadReq = true) :
    (loopBody B r (initCtrl c)).1.time = 0 ∧
    (loopBody B r (initCtrl c)).1.timeIter = 0 ∧
    (loopBody B r (initCtrl c)).1.solverCore = c.old0 := by
  rcases r with ⟨cw, ra, wr, cr, nd⟩
  simp only at hw hr
  subst hw
  subst hr
  cases ra <;> simp [loopBody, restoreCheckpoint, initCtrl]

/-! ### Witnesses: the claim theorems applied at concrete inputs -/

/-- Witness for **C1** at a rollback response. -/
theorem rollback_vs_commit_witness :
    sampleRespRb.cpReadReq = true ∧
    ((loopBody sampleB sampleRespRb sampleCtrl).1.time =
      (if sampleRespRb.cpWriteReq then sampleCtrl.time else sampleCtrl.savedTime) ∧
     (loopBody sampleB sampleRespRb sampleCtrl).1.timeIter =
      (if sampleRespRb.cpWriteReq then sampleCtrl.timeIter else sampleCtrl.savedIter) ∧
     (loopBody sampleB sampleRespRb sampleCtrl).1.solverCore =
      (if sampleRespRb.cpWriteReq then sampleCtrl.solverCore else sampleCtrl.solverOld) ∧
     Ev.output ∉ (loopBody sampleB sampleRespRb sampleCtrl).2.2) :=
  ⟨rfl, (rollback_vs_commit sampleB sampleRespRb sampleCtrl).1 rfl⟩

/-- Witness for **C3** at concrete positive steps (`s = 3`, `d = 2`). -/
theorem effective_step_min_witness :
    0 < sampleCtrl.preciceDt ∧ 0 < sampleCtrl.solverDt ∧
    (Ev.setDt (min sampleCtrl.preciceDt sampleCtrl.solverDt) ∈
      (loopBody sampleB sampleResp sampleCtrl).2.2 ∧
     Ev.solve (min sampleCtrl.preciceDt sampleCtrl.solverDt) ∈
      (loopBody sampleB sampleResp sampleCtrl).2.2 ∧
     Ev.advance (min sampleCtrl.preciceDt sampleCtrl.solverDt) ∈
      (loopBody sampleB sampleResp sampleCtrl).2.2 ∧
     eventsBefore (loopBody sampleB sampleResp sampleCtrl).2.2
       Ev.isSetDt Ev.isSolve ∧
     (loopBody sampleB sampleResp sampleCtrl).1.solverDt =
       min sampleCtrl.preciceDt sampleCtrl.solverDt) :=
  ⟨by norm_num [sampleCtrl], by norm_num [sampleCtrl],
   effective_step_min sampleB sampleResp sampleCtrl
     (by norm_num [sampleCtrl]) (by norm_num [sampleCtrl])⟩

/-- Witness for **C4**: marker `interface` with four vertices of which the
odd-indexed two are halo; the registry keeps exactly `[0, 2]`. -/
theorem registry_physical_vertices_witness :
    "interface" ∈ sampleEnv.roleList ∧
    sampleEnv.allMarkerIDs.lookup "interface" = some 0 ∧
    sampleEnv.nHalo 0 =
      (List.range (sampleEnv.nVertex 0)).countP (fun i => sampleEnv.isHalo 0 i) ∧
    ((∀ i, i ∈ (setupRegistry sampleEnv "interface").physVertices ↔
        i < sampleEnv.nVertex 0 ∧ sampleEnv.isHalo 0 i = false) ∧
     List.Pairwise (· < ·) (setupRegistry sampleEnv "interface").physVertices ∧
     (setupRegistry sampleEnv "interface").physVertices.length =
       (setupRegistry sampleEnv "interface").nVertex -
         (setupRegistry sampleEnv "interface").nVertexHalo) :=
  ⟨by decide, by decide, by decide,
   registry_physical_vertices sampleEnv "interface" 0
     (by decide) (by decide) (by decide)⟩

/-- Witness for **C5**: the marker name `missing` has no role tag. -/
theorem absent_marker_disabled_witness :
    (("missing" : String) ∉ sampleEnv.roleList ∨
      sampleEnv.allMarkerIDs.lookup "missing" = none) ∧
    (setupRegistry sampleEnv "missing" =
      { markerID := none, nVertex := 0, nVertexHalo := 0, nVertexPhys := 0,
        physVertices := [] } ∧
     (∀ (nDim : Nat) (buf : Nat → ℚ × ℚ × ℚ) (k : Nat),
       dispTriplesAux nDim buf k (setupRegistry sampleEnv "missing").physVertices = []) ∧
     (∀ getF : Nat → ℚ,
       gatherScalar getF (setupRegistry sampleEnv "missing").physVertices = []) ∧
     (∀ (σ : Type) (setF : σ → Nat → ℚ → σ) (vals : Nat → ℚ) (k : Nat) (s : σ),
       applyScalarAux setF vals k (setupRegistry sampleEnv "missing").physVertices s = s)) :=
  ⟨Or.inl (by decide),
   absent_marker_disabled sampleEnv "missing" (Or.inl (by decide))⟩

/-- Witness for **C7**: a 2-vs-3 dimension mismatch aborts; matching
dimensions initialize. -/
theorem dimension_mismatch_aborts_witness :
    sampleConfigBad.nDim ≠ sampleConfigBad.preciceDim ∧
    ((fullRun sampleConfigBad sampleB []).1 = none ∧
     (fullRun sampleConfigBad sampleB []).2 = [Ev.abortDim] ∧
     (∀ m, Ev.registerMesh m ∉ (fullRun sampleConfigBad sampleB []).2) ∧
     (∀ m f, Ev.writeData m f ∉ (fullRun sampleConfigBad sampleB []).2) ∧
     (∀ q, Ev.solve q ∉ (fullRun sampleConfigBad sampleB []).2)) ∧
    (fullRun sampleConfig sampleB []).1.isSome = true :=
  ⟨by decide,
   (dimension_mismatch_aborts sampleConfigBad sampleB []).1 (by decide),
   (dimension_mismatch_aborts sampleConfig sampleB []).2 rfl⟩

/-- Witness for **C9** on a one-iteration run with read data available. -/
theorem secondary_mesh_never_written_witness :
    (∀ f, Ev.writeData MeshTag.secondary f ∉
      (fullRun sampleConfig sampleB [sampleResp]).2) ∧
    Ev.registerMesh MeshTag.secondary ∈
      (fullRun sampleConfig sampleB [sampleResp]).2 ∧
    Ev.readApply MeshTag.secondary ∈
      (loopBody sampleB sampleResp sampleCtrl).2.2 :=
  ⟨(secondary_mesh_never_written sampleConfig sampleB [sampleResp]
      sampleResp sampleCtrl).1,
   (secondary_mesh_never_written sampleConfig sampleB [sampleResp]
      sampleResp sampleCtrl).2.1 rfl,
   (secondary_mesh_never_written sampleConfig sampleB [sampleResp]
      sampleResp sampleCtrl).2.2 rfl⟩

/-- Witness for **C10**: a restarted run (pre-loop `TimeIter = 5`,
`time = 10`) rolled back with no prior save rewinds to zero. -/
theorem rollback_before_any_save_witness :
    sampleRespRb0.cpWriteReq = false ∧ sampleRespRb0.cpReadReq = true ∧
    (initCtrl sampleConfig).time = 10 ∧ (initCtrl sampleConfig).timeIter = 5 ∧
    ((loopBody sampleB sampleRespRb0 (initCtrl sampleConfig)).1.time = 0 ∧
     (loopBody sampleB sampleRespRb0 (initCtrl sampleConfig)).1.timeIter = 0 ∧
     (loopBody sampleB sampleRespRb0 (initCtrl sampleConfig)).1.solverCore =
       sampleConfig.old0) :=
  ⟨rfl, rfl, by norm_num [initCtrl, sampleConfig], rfl,
   rollback_before_any_save sampleConfig sampleB sampleRespRb0 rfl rfl⟩

end SU2Coupling
